import Mathlib

/-!
Formal model of the Factor-Portfolio-Stress-Testing risk engine
(`src/portfolio.py`), as a shallow embedding over exact rational arithmetic.

Modelling conventions used throughout:

* A pandas return `Series` is a `List ℚ`.
* Float arithmetic is modelled by exact arithmetic over `ℚ`.  Division by zero
  follows the Lean convention `x / 0 = 0`; wherever the Python code would
  instead produce a non-finite float (NaN or Inf) this is noted in the
  definition docstring, and where a claim turns on finiteness the value is
  modelled as an `Option`.
* `pandas.Series.std()` uses `ddof = 1`, so the sample variance divides by
  `n - 1`.  The standard deviation itself is irrational over `ℚ`; every
  comparison or formula of the source that mentions `std` is rewritten as an
  exact algebraic equivalent mentioning only the variance:
  `|x| > 2 * std  ↔  x ^ 2 > 4 * var` (both sides of the source comparison are
  nonnegative), and `z ^ 3 * std = (x - mean) ^ 3 / var` for
  `z = (x - mean) / std`.
* Monte Carlo sampling is randomness and is not embeddable; functions that
  consume a simulated sample take the sample (or a sampling oracle
  `sim : List ℚ → List ℚ`) as an explicit argument, exactly as the
  specification describes the Tail-Risk Estimator consuming a sample.
-/

namespace PortfolioStress

/-- Arithmetic mean of a series (`Series.mean()`).  On an empty series pandas
gives NaN; here `0 / 0 = 0` by the `ℚ` convention.  The claims below only use
the mean of non-empty series. -/
def mean (l : List ℚ) : ℚ := l.sum / l.length

/-- Sample variance with `ddof = 1` (the square of `Series.std()`, the pandas
default).  For series of length ≤ 1 pandas gives NaN; here the division by
`n - 1` degenerates to `0` by the `ℚ` convention. -/
def sampleVar (l : List ℚ) : ℚ :=
  ((l.map (fun x => (x - mean l) ^ 2)).sum) / ((l.length : ℚ) - 1)

/-- Shock parameter record: the five keys read by
`generate_correlated_scenario_returns` (portfolio.py lines 154-158), with the
`dict.get` defaults of those lines as field defaults. -/
structure ShockParams where
  multiplicative : ℚ := 1
  additive : ℚ := 0
  vol_factor : ℚ := 1
  skew_factor : ℚ := 0
  tail_factor : ℚ := 1
deriving DecidableEq

/-- Embedding of `generate_correlated_scenario_returns` (portfolio.py lines
136-190).  The four sequential blocks of the source are the four `let`
bindings: base adjustment (line 161), volatility adjustment guarded by
`vol_factor != 1.0` (lines 164-167), tail enhancement guarded by
`tail_factor != 1.0` (lines 170-178, where the source comparison
`|x| > 2 * std` is expressed as `x ^ 2 > 4 * var`), and skew adjustment
guarded by `skew_factor != 0` (lines 181-188, where the source formula
`skew_factor * z ^ 3 * std / 10` with `z = (x - mean) / std` is expressed as
`skew_factor * (x - mean) ^ 3 / var / 10`). -/
def generate_correlated_scenario_returns (returns : List ℚ) (p : ShockParams) : List ℚ :=
  let adjusted1 := returns.map fun x => x * p.multiplicative + p.additive
  let adjusted2 :=
    if p.vol_factor ≠ 1 then
      adjusted1.map fun x => (x - mean adjusted1) * p.vol_factor + mean adjusted1
    else adjusted1
  let adjusted3 :=
    if p.tail_factor ≠ 1 then
      adjusted2.map fun x => if x ^ 2 > 4 * sampleVar adjusted2 then x * p.tail_factor else x
    else adjusted2
  if p.skew_factor ≠ 0 then
    adjusted3.map fun x => x + p.skew_factor * (x - mean adjusted3) ^ 3 / sampleVar adjusted3 / 10
  else adjusted3

/-- Scenario Specification (spec section 3): a named record of shock fields,
with the defaults of the `scenario.get` calls at portfolio.py lines 211-215. -/
structure Scenario where
  name : String
  shock : ℚ := 0
  additive : ℚ := 0
  vol_factor : ℚ := 1
  skew_factor : ℚ := 0
  tail_factor : ℚ := 1
deriving DecidableEq

/-- The shock-parameter dict built by `stress_test_portfolio` at portfolio.py
lines 210-216: `multiplicative = 1 + shock`, the remaining fields copied. -/
def shockParamsOfScenario (scen : Scenario) : ShockParams :=
  ⟨1 + scen.shock, scen.additive, scen.vol_factor, scen.skew_factor, scen.tail_factor⟩

/-- Stage 1 of the Scenario Shock Model, modelled from the words of the spec
(section 4.4): level shift `r * (1 + shock) + additive`. -/
def levelShift (shock additive : ℚ) (r : List ℚ) : List ℚ :=
  r.map fun x => x * (1 + shock) + additive

/-- Stage 2 of the Scenario Shock Model, modelled from the words of the spec:
subtract the mean, scale deviations by `vol_factor`, re-add the mean. -/
def volScale (vol_factor : ℚ) (r : List ℚ) : List ℚ :=
  r.map fun x => (x - mean r) * vol_factor + mean r

/-- Stage 3 of the Scenario Shock Model, modelled from the words of the spec:
multiply by `tail_factor` exactly the elements whose absolute value exceeds two
standard deviations of the current series (expressed over `ℚ` by the exact
equivalent `x ^ 2 > 4 * var`). -/
def tailAmplify (tail_factor : ℚ) (r : List ℚ) : List ℚ :=
  r.map fun x => if x ^ 2 > 4 * sampleVar r then x * tail_factor else x

/-- Stage 4 of the Scenario Shock Model, modelled from the words of the spec:
add `skew_factor * z ^ 3 * std / 10` with `z` the series standardized by its
own mean and std (expressed over `ℚ` by the exact equivalent
`skew_factor * (x - mean) ^ 3 / var / 10`). -/
def skewInject (skew_factor : ℚ) (r : List ℚ) : List ℚ :=
  r.map fun x => x + skew_factor * (x - mean r) ^ 3 / sampleVar r / 10

/-- The four-stage pipeline of spec section 4.4, each stage applied
unconditionally, in the fixed order 1-2-3-4, each stage consuming the output of
the previous stage, with `multiplicative = 1 + shock` as plumbed by
`stress_test_portfolio`. -/
def shockPipelineSpec (scen : Scenario) (r : List ℚ) : List ℚ :=
  skewInject scen.skew_factor
    (tailAmplify scen.tail_factor
      (volScale scen.vol_factor
        (levelShift scen.shock scen.additive r)))

/-- Truncation toward zero: the semantics of the Python `int()` conversion at
portfolio.py line 81. -/
def intTrunc (q : ℚ) : ℤ := if 0 ≤ q then ⌊q⌋ else ⌈q⌉

/-- The quantile index `var_index = int(n_simulations * alpha)` of portfolio.py
line 81, with `alpha = 1 - confidence_level` (line 54).  For
`confidence_level ≤ 1` the truncation coincides with the floor and the index is
nonnegative, so the final `.toNat` is exact; for `confidence_level > 1` Python
would instead index the array from its end with a negative index, a regime no
caller of this code uses and which the theorems below exclude by hypothesis. -/
def varIndex (n : ℕ) (confidence_level : ℚ) : ℕ :=
  (intTrunc ((n : ℚ) * (1 - confidence_level))).toNat

/-- Ascending sort, `np.sort` of portfolio.py line 80. -/
def sortAsc (l : List ℚ) : List ℚ := l.insertionSort (· ≤ ·)

/-- The slice `sorted_returns[:var_index]` whose mean is negated to give CVaR
at portfolio.py line 83. -/
def cvarSlice (simulated_returns : List ℚ) (confidence_level : ℚ) : List ℚ :=
  (sortAsc simulated_returns).take (varIndex simulated_returns.length confidence_level)

/-- The deterministic tail of `monte_carlo_var_cvar` (portfolio.py lines
79-85): sort the simulated sample ascending, `var = -sorted[var_index]`,
`cvar = -mean(sorted[:var_index])`.  The random simulated sample itself (lines
61-77) is a Monte Carlo draw and is passed in explicitly, as in the contract of
the Tail-Risk Estimator in spec section 4.3; `n_simulations` is the sample
length.  Out-of-range indexing (`var_index ≥ n`, an IndexError in Python) is
modelled by the default value 0 of `getD`; the mean of an empty slice (NaN with
a warning in numpy) degenerates to `0 / 0 = 0` in `ℚ`. -/
def monte_carlo_var_cvar (simulated_returns : List ℚ) (confidence_level : ℚ) : ℚ × ℚ :=
  let sorted_returns := sortAsc simulated_returns
  let var_index := varIndex simulated_returns.length confidence_level
  (-(sorted_returns.getD var_index 0),
   -(mean (cvarSlice simulated_returns confidence_level)))

/-- Specification-side VaR, modelled from the words of spec section 4.3: the
negated element at index `floor(n_simulations * (1 - confidence_level))` of the
ascending-sorted sample. -/
def varSpec (sample : List ℚ) (confidence_level : ℚ) : ℚ :=
  -((sortAsc sample).getD (⌊(sample.length : ℚ) * (1 - confidence_level)⌋).toNat 0)

/-- Specification-side CVaR, modelled from the words of spec section 4.3: the
negated mean of all elements strictly below the quantile index in the
ascending-sorted sample. -/
def cvarSpec (sample : List ℚ) (confidence_level : ℚ) : ℚ :=
  -(mean ((sortAsc sample).take (⌊(sample.length : ℚ) * (1 - confidence_level)⌋).toNat))

/-- Rounding to 4 decimal places with the round-half-to-even tie rule of the
Python builtin `round` used at portfolio.py lines 125-133. -/
def round4 (q : ℚ) : ℚ :=
  let y := q * 10000
  let f := y - ⌊y⌋
  ((if f < 1/2 then ⌊y⌋ else if 1/2 < f then ⌊y⌋ + 1 else if 2 ∣ ⌊y⌋ then ⌊y⌋ else ⌊y⌋ + 1 : ℤ) : ℚ)
    / 10000

/-- Linear-interpolation quantile, the pandas `Series.quantile` default used at
portfolio.py line 115: with the sample sorted ascending and
`h = q * (n - 1)`, interpolate between the elements at `floor h` and
`floor h + 1`.  The `getD` default makes the out-of-range access at the top
end (reached only when the fractional part is zero, where the interpolation
term vanishes) harmless. -/
def quantile (l : List ℚ) (q : ℚ) : ℚ :=
  let s := sortAsc l
  let h := q * ((l.length : ℚ) - 1)
  let lo := (⌊h⌋).toNat
  let x := s.getD lo 0
  x + (h - ⌊h⌋) * (s.getD (lo + 1) x - x)

/-- The Sharpe-ratio computation of portfolio.py lines 108-109,
`(excess_return / returns.std()) * np.sqrt(252)` with
`excess_return = mean - risk_free_rate / 252`.  The float result is finite iff
`std(returns) ≠ 0`; when `std(returns) = 0` the division produces NaN or Inf,
modelled as `none` (the code raises no error).  Since the finite value
`excess / √var · √252` is irrational over `ℚ`, it is recorded by its exact
signed square `excess · |excess| · 252 / var`, an order-preserving injective
encoding of the float value (the positive factor `√(252 / var)` is squared
away); no claim below depends on more than the finiteness and the encoding. -/
def sharpeEnc (returns : List ℚ) (risk_free_rate : ℚ) : Option ℚ :=
  let excess_return := mean returns - risk_free_rate / 252
  if sampleVar returns = 0 then none
  else some (excess_return * |excess_return| * 252 / sampleVar returns)

/-- Helper of the cumulative product: `cumprodAux p l` maps `l` to the running
products seeded with `p`. -/
def cumprodAux (p : ℚ) : List ℚ → List ℚ
  | [] => []
  | x :: xs => p * x :: cumprodAux (p * x) xs

/-- Cumulative product, pandas `Series.cumprod()` at portfolio.py line 118. -/
def cumprod (l : List ℚ) : List ℚ := cumprodAux 1 l

/-- Helper of the running maximum: running maxima of the tail seeded with the
maximum `m` seen so far. -/
def runningMaxAux (m : ℚ) : List ℚ → List ℚ
  | [] => []
  | x :: xs => max m x :: runningMaxAux (max m x) xs

/-- Running maximum, pandas `Series.cummax()` at portfolio.py line 119. -/
def runningMax (l : List ℚ) : List ℚ :=
  match l with
  | [] => []
  | x :: xs => x :: runningMaxAux x xs

/-- Minimum of a series, pandas `Series.min()` at portfolio.py line 119.  On an
empty series pandas gives NaN; the junk value 0 is never used because the
drawdown claims concern non-empty series only. -/
def listMin : List ℚ → ℚ
  | [] => 0
  | x :: xs => xs.foldl min x

/-- The cumulative wealth path `(1 + returns).cumprod()` of portfolio.py
line 118. -/
def cumulativePath (returns : List ℚ) : List ℚ :=
  cumprod (returns.map fun x => 1 + x)

/-- Maximum drawdown of portfolio.py line 119: the minimum over the cumulative
path of `value / running-peak - 1`.  A path value of exactly 0 (a prefix of the
returns containing a -100 percent return) makes the float code divide 0 by 0,
producing NaN ratios and a NaN minimum, while over `ℚ` the convention
`0 / 0 = 0` yields a number instead; the two semantics diverge there, so the
drawdown theorems below carry a no-zero-path proviso on every conjunct and
assert nothing at such inputs.  The counterexample input (first return -100
percent) is degenerate in both semantics: the drawdown is NaN in float and
`0/0 - 1 = -1` over `ℚ`, in neither case 0, and the float NaN fails `≤ 0` as
well. -/
def max_drawdown (returns : List ℚ) : ℚ :=
  listMin (List.zipWith (fun c m => c / m - 1)
    (cumulativePath returns) (runningMax (cumulativePath returns)))

/-- Risk Metrics Record of `calculate_risk_metrics` (portfolio.py lines
124-134), restricted to exactly representable content: the annualized
volatility of line 107 is recorded by its exact square `252 * var` (the float
value `std * √252` is irrational, as is its rounding); the Sharpe ratio is the
`Option`-encoded value of `sharpeEnc`; the remaining retained fields are
rational and carry the 4-decimal rounding of the source.  The skewness and
kurtosis entries (lines 121-122, irrational standardized moments) are not
consumed by any claim and are omitted; every claim about the record applies
the same constructor on both sides, so the omission is neutral. -/
structure RiskMetrics where
  volatilitySq : ℚ
  sharpe : Option ℚ
  var95 : ℚ
  cvar95 : ℚ
  histVar95 : ℚ
  histCvar95 : ℚ
  maxDrawdown : ℚ
deriving DecidableEq

/-- Embedding of `calculate_risk_metrics` (portfolio.py lines 87-134).  The
Monte Carlo simulation of line 112 (drawing 100000 samples by the chosen
method) is randomness and is abstracted as the sampling oracle `sim`; the
deterministic tail of `monte_carlo_var_cvar` is then applied to `sim returns`
at the fixed confidence level 0.95.  The function is total: it raises no
error on any input (in particular not on zero-variance input). -/
def calculate_risk_metrics (sim : List ℚ → List ℚ) (returns : List ℚ)
    (risk_free_rate : ℚ) : RiskMetrics :=
  let mc := monte_carlo_var_cvar (sim returns) (95/100)
  let hist_var_95 := -(quantile returns (5/100))
  let hist_cvar_95 := -(mean (returns.filter fun x => x ≤ -hist_var_95))
  ⟨252 * sampleVar returns,
   sharpeEnc returns risk_free_rate,
   round4 mc.1,
   round4 mc.2,
   round4 hist_var_95,
   round4 hist_cvar_95,
   round4 (max_drawdown returns)⟩

/-- Embedding of `stress_test_portfolio` (portfolio.py lines 192-222): fold
over the ordered scenario list, for each scenario build the shock-parameter
dict (lines 210-216), shock the original baseline series (line 218), compute
its metrics (line 219) and assign into the result dict keyed by the scenario
name (line 220).  The Python dict is modelled as a partial map
`String → Option RiskMetrics`; dict assignment is `Function.update`, hence
last-write-wins on duplicate names.  The Monte Carlo draw inside the metrics
computation is the oracle `sim`, and `tqdm` (line 209) is progress display
only. -/
def stress_test_portfolio (sim : List ℚ → List ℚ) (returns : List ℚ)
    (scenarios : List Scenario) : String → Option RiskMetrics :=
  scenarios.foldl
    (fun stressed_results scenario =>
      Function.update stressed_results scenario.name
        (some (calculate_risk_metrics sim
          (generate_correlated_scenario_returns returns (shockParamsOfScenario scenario)) 0)))
    fun _ => none

/-- The regime-to-weights lookup of `construct_portfolio` (portfolio.py lines
27-34): three recognized labels, and the final `else` branch (commented
`# Recovery` in the source) catching everything else, the Recovery label and
any unrecognized label alike. -/
def regimeWeights (regime : String) : List ℚ :=
  if regime = "Expansion" then [40/100, 15/100, 15/100, 15/100, 15/100]
  else if regime = "Recession" then [15/100, 22/100, 22/100, 20/100, 21/100]
  else if regime = "Contraction" then [15/100, 15/100, 30/100, 25/100, 15/100]
  else [25/100, 25/100, 15/100, 15/100, 20/100]

/-- Dot product of one day of factor returns with the weight vector: one row of
`factors.dot(weights)` at portfolio.py line 37. -/
def dot (row weights : List ℚ) : ℚ := (List.zipWith (· * ·) row weights).sum

/-- Embedding of `construct_portfolio` (portfolio.py lines 6-38): select the
weights by regime label, normalize them by their sum (line 36), then take the
daily dot product with the factor rows (line 37).  The factor frame is the
list of daily rows `[MKT, SMB, HML, RMW, CMA]`. -/
def construct_portfolio (factors : List (List ℚ)) (regime : String) : List ℚ :=
  let weights := regimeWeights regime
  let normalized := weights.map fun w => w / weights.sum
  factors.map fun row => dot row normalized

/-- A heap of pandas Series objects, for making the Python object semantics of
the shock model explicit (claim C10 is about mutation, which the pure
embedding cannot even express).  `mem` maps an object id to the Series value
it currently holds; ids below `next` are allocated. -/
structure Store where
  mem : ℕ → List ℚ
  next : ℕ

/-- Allocate a fresh Series object holding `v`, returning the new store and
the id of the new object.  Every pandas operation that produces a new Series
(`*`, `+`, `.copy()`, `.map`, ...) is an allocation. -/
def Store.alloc (s : Store) (v : List ℚ) : Store × ℕ :=
  (⟨Function.update s.mem s.next v, s.next + 1⟩, s.next)

/-- Overwrite the Series object `i` in place — the masked in-place assignment
`tail_adjustment[extreme_mask] *= tail_factor` of portfolio.py line 177, the
single mutating statement of the shock model. -/
def Store.write (s : Store) (i : ℕ) (v : List ℚ) : Store :=
  ⟨Function.update s.mem i v, s.next⟩

/-- Store-passing embedding of `generate_correlated_scenario_returns`
(portfolio.py lines 136-190), making the Python object operations explicit:
the input series lives at id `rid` and is only ever read; line 161 allocates
the base-adjusted series; the volatility block allocates its result; the tail
block first allocates `tail_adjustment = adjusted_returns.copy()` (line 176)
and then writes the masked product in place into that fresh copy (line 177);
the skew block allocates its result.  Returns the final store and the id of
the result series.  The numeric content of each stage is identical to the
pure embedding (see `generateSt_result`). -/
def generateSt (s0 : Store) (rid : ℕ) (p : ShockParams) : Store × ℕ :=
  let r := s0.mem rid
  let st1 := s0.alloc (r.map fun x => x * p.multiplicative + p.additive)
  let st2 :=
    if p.vol_factor ≠ 1 then
      let v := st1.1.mem st1.2
      st1.1.alloc (v.map fun x => (x - mean v) * p.vol_factor + mean v)
    else st1
  let st3 :=
    if p.tail_factor ≠ 1 then
      let v := st2.1.mem st2.2
      let tl := st2.1.alloc v
      (tl.1.write tl.2 (v.map fun x => if x ^ 2 > 4 * sampleVar v then x * p.tail_factor else x),
       tl.2)
    else st2
  if p.skew_factor ≠ 0 then
    let v := st3.1.mem st3.2
    st3.1.alloc (v.map fun x => x + p.skew_factor * (x - mean v) ^ 3 / sampleVar v / 10)
  else st3

/-- Store-passing embedding of `stress_test_portfolio` (portfolio.py lines
192-222): the baseline series lives at id `rid`; each scenario shocks it via
`generateSt`, reads the stressed series back and records its metrics under the
scenario name. -/
def stress_test_portfolioSt (sim : List ℚ → List ℚ) (s0 : Store) (rid : ℕ)
    (scenarios : List Scenario) : Store × (String → Option RiskMetrics) :=
  scenarios.foldl
    (fun (st : Store × (String → Option RiskMetrics)) scenario =>
      let r1 := generateSt st.1 rid (shockParamsOfScenario scenario)
      let m := calculate_risk_metrics sim (r1.1.mem r1.2) 0
      (r1.1, Function.update st.2 scenario.name (some m)))
    (s0, fun _ => none)

theorem volScale_one (r : List ℚ) : volScale 1 r = r := by
  unfold volScale
  have h : ∀ x ∈ r, (x - mean r) * 1 + mean r = x := by
    intro x _
    ring
  rw [List.map_congr_left h, List.map_id']

theorem tailAmplify_one (r : List ℚ) : tailAmplify 1 r = r := by
  unfold tailAmplify
  have h : ∀ x ∈ r, (if x ^ 2 > 4 * sampleVar r then x * 1 else x) = x := by
    intro x _
    split <;> ring
  rw [List.map_congr_left h, List.map_id']

theorem skewInject_zero (r : List ℚ) : skewInject 0 r = r := by
  unfold skewInject
  have h : ∀ x ∈ r, x + 0 * (x - mean r) ^ 3 / sampleVar r / 10 = x := by
    intro x _
    ring
  rw [List.map_congr_left h, List.map_id']

theorem volStep_eq (vf : ℚ) (l : List ℚ) :
    (if vf ≠ 1 then l.map fun x => (x - mean l) * vf + mean l else l) = volScale vf l := by
  split
  · rfl
  · rename_i h
    push_neg at h
    rw [h, volScale_one]

theorem tailStep_eq (tf : ℚ) (l : List ℚ) :
    (if tf ≠ 1 then l.map fun x => if x ^ 2 > 4 * sampleVar l then x * tf else x else l) =
      tailAmplify tf l := by
  split
  · rfl
  · rename_i h
    push_neg at h
    rw [h, tailAmplify_one]

theorem skewStep_eq (sf : ℚ) (l : List ℚ) :
    (if sf ≠ 0 then l.map fun x => x + sf * (x - mean l) ^ 3 / sampleVar l / 10 else l) =
      skewInject sf l := by
  split
  · rfl
  · rename_i h
    push_neg at h
    rw [h, skewInject_zero]

theorem generate_eq_stages (returns : List ℚ) (p : ShockParams) :
    generate_correlated_scenario_returns returns p =
      skewInject p.skew_factor
        (tailAmplify p.tail_factor
          (volScale p.vol_factor
            (returns.map fun x => x * p.multiplicative + p.additive))) := by
  unfold generate_correlated_scenario_returns
  dsimp only
  rw [volStep_eq, tailStep_eq, skewStep_eq]

/-- C1: for every return series and every scenario, the shock model as invoked
by `stress_test_portfolio` (with `multiplicative = 1 + shock`) produces exactly
the result of the four-stage spec pipeline, the stages applied in the fixed
order level shift, volatility scaling, tail amplification, skew injection,
each stage consuming the output of the previous one. -/
theorem C1_shock_pipeline_order (returns : List ℚ) (scen : Scenario) :
    generate_correlated_scenario_returns returns (shockParamsOfScenario scen) =
      shockPipelineSpec scen returns := by
  rw [generate_eq_stages]
  rfl

/-- C2: the all-default scenario (shock = 0, additive = 0, vol_factor = 1,
skew_factor = 0, tail_factor = 1) is the identity transform on every return
series. -/
theorem C2_default_scenario_identity (returns : List ℚ) (nm : String) :
    generate_correlated_scenario_returns returns
      (shockParamsOfScenario ⟨nm, 0, 0, 1, 0, 1⟩) = returns := by
  unfold generate_correlated_scenario_returns shockParamsOfScenario
  simp

theorem mean_le_of_forall_le {l : List ℚ} {b : ℚ} (hne : l ≠ []) (h : ∀ x ∈ l, x ≤ b) :
    mean l ≤ b := by
  have hlen : 0 < (l.length : ℚ) := by
    exact_mod_cast List.length_pos.mpr hne
  have hs : l.sum ≤ l.length • b := List.sum_le_card_nsmul l b h
  rw [nsmul_eq_mul] at hs
  unfold mean
  rw [div_le_iff₀ hlen]
  linarith

/-- C3: whenever the computed quantile index is at least 1 (a non-degenerate
left tail) and within range, the CVaR returned by `monte_carlo_var_cvar` is at
least the VaR. -/
theorem C3_cvar_ge_var (sample : List ℚ) (c : ℚ)
    (h1 : 1 ≤ varIndex sample.length c) (h2 : varIndex sample.length c < sample.length) :
    (monte_carlo_var_cvar sample c).1 ≤ (monte_carlo_var_cvar sample c).2 := by
  unfold monte_carlo_var_cvar
  dsimp only
  set s := sortAsc sample with hsdef
  set i := varIndex sample.length c with hidef
  have hlen : s.length = sample.length := (List.perm_insertionSort _ _).length_eq
  have hiw : i < s.length := by rw [hlen]; exact h2
  have hsorted : List.Sorted (· ≤ ·) s := List.sorted_insertionSort _ _
  have hslice : cvarSlice sample c = s.take i := rfl
  have hmem : s[i] ∈ s.drop i := by
    rw [← List.getElem_cons_drop s i hiw]
    exact List.mem_cons_self _ _
  have hub : ∀ x ∈ s.take i, x ≤ s[i] := fun x hx =>
    hsorted.rel_of_mem_take_of_mem_drop hx hmem
  have hne : s.take i ≠ [] := by
    have hpos : 0 < (s.take i).length := by
      rw [List.length_take, hlen]
      omega
    exact List.ne_nil_of_length_pos hpos
  have hmean : mean (s.take i) ≤ s[i] := mean_le_of_forall_le hne hub
  have hgetD : s.getD i 0 = s[i] := List.getD_eq_getElem s 0 hiw
  rw [hslice, hgetD]
  exact neg_le_neg hmean

theorem C3_cvar_ge_var_witness :
    1 ≤ varIndex ([0, -1, 2, 1] : List ℚ).length (1/2) ∧
      varIndex ([0, -1, 2, 1] : List ℚ).length (1/2) < ([0, -1, 2, 1] : List ℚ).length ∧
      (monte_carlo_var_cvar [0, -1, 2, 1] (1/2)).1 ≤ (monte_carlo_var_cvar [0, -1, 2, 1] (1/2)).2 :=
  ⟨by norm_num [varIndex, intTrunc], by norm_num [varIndex, intTrunc],
    C3_cvar_ge_var [0, -1, 2, 1] (1/2) (by norm_num [varIndex, intTrunc])
      (by norm_num [varIndex, intTrunc])⟩

/-- C4: for every simulated sample and confidence level `c ≤ 1` (the regime in
which the Python `int()` truncation is a floor and the index is nonnegative),
`monte_carlo_var_cvar` returns exactly the specification formulas: VaR is the
negated element at index `floor(n * (1 - c))` of the ascending-sorted sample
and CVaR is the negated mean of all elements strictly below that index. -/
theorem C4_var_cvar_formula (sample : List ℚ) (c : ℚ) (hc : c ≤ 1) :
    monte_carlo_var_cvar sample c = (varSpec sample c, cvarSpec sample c) := by
  have hα : 0 ≤ (sample.length : ℚ) * (1 - c) :=
    mul_nonneg (Nat.cast_nonneg _) (by linarith)
  unfold monte_carlo_var_cvar varSpec cvarSpec cvarSlice varIndex intTrunc
  rw [if_pos hα]

theorem C4_var_cvar_formula_witness :
    (3/4 : ℚ) ≤ 1 ∧
      monte_carlo_var_cvar [3, -2, 5, 0] (3/4) =
        (varSpec [3, -2, 5, 0] (3/4), cvarSpec [3, -2, 5, 0] (3/4)) :=
  ⟨by norm_num, C4_var_cvar_formula [3, -2, 5, 0] (3/4) (by norm_num)⟩

/-- C5: the code has no guard for a zero quantile index.  At a simulated sample
of 10 draws and the default confidence level 0.95 the computed index is 0 and
the slice `sorted_returns[:var_index]` that CVaR averages is empty — numpy then
returns NaN from the mean of an empty slice (modelled by the degenerate
`0 / 0 = 0` of `ℚ`, the final conjunct), rather than a slice of minimum size 1
as the claim states. -/
theorem C5_cvar_slice_empty :
    varIndex 10 (95/100) = 0 ∧
      cvarSlice [1, 2, 3, 4, 5, 6, 7, 8, 9, 10] (95/100) = [] ∧
      (monte_carlo_var_cvar [1, 2, 3, 4, 5, 6, 7, 8, 9, 10] (95/100)).2 = -(mean []) := by
  have h0 : varIndex 10 (95/100) = 0 := by norm_num [varIndex, intTrunc]
  have h1 : cvarSlice [1, 2, 3, 4, 5, 6, 7, 8, 9, 10] (95/100) = [] := by
    unfold cvarSlice
    rw [show ([1, 2, 3, 4, 5, 6, 7, 8, 9, 10] : List ℚ).length = 10 from rfl, h0]
    rfl
  refine ⟨h0, h1, ?_⟩
  unfold monte_carlo_var_cvar
  dsimp only
  rw [h1]

/-- C6: on every zero-variance return series `calculate_risk_metrics` raises no
error: it returns an ordinary metrics record whose Sharpe entry is the
non-finite float NaN/Inf (modelled as `none`), the divergence from the claimed
DegenerateDistributionError policy of the spec. -/
theorem C6_zero_variance_sharpe_nonfinite (sim : List ℚ → List ℚ) (r : List ℚ) (rf : ℚ)
    (hv : sampleVar r = 0) :
    (calculate_risk_metrics sim r rf).sharpe = none := by
  show sharpeEnc r rf = none
  unfold sharpeEnc
  rw [if_pos hv]

theorem C6_zero_variance_sharpe_nonfinite_witness :
    sampleVar [1/100, 1/100, 1/100, 1/100] = 0 ∧
      (calculate_risk_metrics (fun l => l) [1/100, 1/100, 1/100, 1/100] 0).sharpe = none :=
  ⟨by norm_num [sampleVar, mean],
    C6_zero_variance_sharpe_nonfinite (fun l => l) [1/100, 1/100, 1/100, 1/100] 0
      (by norm_num [sampleVar, mean])⟩

theorem foldl_min_le_init (xs : List ℚ) (x : ℚ) : xs.foldl min x ≤ x := by
  induction xs generalizing x with
  | nil => exact le_refl x
  | cons y ys ih => exact le_trans (ih (min x y)) (min_le_left x y)

theorem listMin_le_head (x : ℚ) (xs : List ℚ) : listMin (x :: xs) ≤ x :=
  foldl_min_le_init xs x

theorem foldl_min_zero (xs : List ℚ) (h : ∀ y ∈ xs, y = 0) : xs.foldl min 0 = 0 := by
  induction xs with
  | nil => rfl
  | cons y ys ih =>
    have hy : y = 0 := h y (List.mem_cons_self _ _)
    have : min 0 y = 0 := by rw [hy, min_self]
    rw [List.foldl_cons, this]
    exact ih fun z hz => h z (List.mem_cons_of_mem _ hz)

theorem listMin_all_zero (l : List ℚ) (hne : l ≠ []) (h : ∀ y ∈ l, y = 0) :
    listMin l = 0 := by
  obtain ⟨x, xs, rfl⟩ := List.exists_cons_of_ne_nil hne
  have hx : x = 0 := h x (List.mem_cons_self _ _)
  show xs.foldl min x = 0
  rw [hx]
  exact foldl_min_zero xs fun z hz => h z (List.mem_cons_of_mem _ hz)

/-- C7 (amended): for every non-empty return series whose cumulative wealth
path never hits zero (no prefix of the returns contains a -100 percent
return — the proviso the counterexample forces, guarding both conjuncts,
since at a zero path value the float code produces NaN ratios and a NaN
minimum, which is neither `≤ 0` nor `= 0`): the maximum drawdown is at most
0, and it equals exactly 0 when additionally the cumulative path coincides
with its running peak (never falls below a prior peak). -/
theorem C7_amended_drawdown (r : List ℚ) (hne : r ≠ [])
    (hnz : ∀ c ∈ cumulativePath r, c ≠ 0) :
    max_drawdown r ≤ 0 ∧
      (cumulativePath r = runningMax (cumulativePath r) → max_drawdown r = 0) := by
  obtain ⟨x, xs, rfl⟩ := List.exists_cons_of_ne_nil hne
  have hpath : cumulativePath (x :: xs) =
      (1 * (1 + x)) :: cumprodAux (1 * (1 + x)) (xs.map fun y => 1 + y) := rfl
  have ha : (1 : ℚ) * (1 + x) ≠ 0 := by
    refine hnz _ ?_
    rw [hpath]
    exact List.mem_cons_self _ _
  constructor
  · rw [max_drawdown, hpath]
    rw [show runningMax ((1 * (1 + x)) :: cumprodAux (1 * (1 + x)) (xs.map fun y => 1 + y)) =
        (1 * (1 + x)) :: runningMaxAux (1 * (1 + x))
          (cumprodAux (1 * (1 + x)) (xs.map fun y => 1 + y)) from rfl]
    rw [List.zipWith_cons_cons]
    refine le_trans (listMin_le_head _ _) ?_
    rw [div_self ha]
    norm_num
  · intro hpeak
    rw [max_drawdown, ← hpeak, List.zipWith_same]
    refine listMin_all_zero _ ?_ ?_
    · rw [hpath]
      simp
    · intro z hz
      obtain ⟨c, hc, rfl⟩ := List.mem_map.mp hz
      rw [div_self (hnz c hc)]
      ring

theorem C7_amended_drawdown_witness :
    ([(1/2 : ℚ)] ≠ []) ∧ (∀ c ∈ cumulativePath [(1/2 : ℚ)], c ≠ 0) ∧
      (max_drawdown [(1/2 : ℚ)] ≤ 0 ∧
        (cumulativePath [(1/2 : ℚ)] = runningMax (cumulativePath [(1/2 : ℚ)]) →
          max_drawdown [(1/2 : ℚ)] = 0)) :=
  ⟨by simp,
    by
      intro c hc
      rw [show cumulativePath [(1/2 : ℚ)] = [1 * (1 + 1/2)] from rfl,
        List.mem_singleton] at hc
      rw [hc]
      norm_num,
    C7_amended_drawdown [(1/2 : ℚ)] (by simp)
      (by
        intro c hc
        rw [show cumulativePath [(1/2 : ℚ)] = [1 * (1 + 1/2)] from rfl,
          List.mem_singleton] at hc
        rw [hc]
        norm_num)⟩

/-- C7 counterexample to the claim as stated: for the singleton series with a
-100 percent return, the cumulative path `[0]` trivially never falls below a
prior peak (it equals its running maximum), yet the maximum drawdown is not 0:
over exact arithmetic it is `0/0 - 1 = -1`, and the float code produces NaN,
which is neither 0 nor `≤ 0` — at a zero path value the program satisfies
neither conjunct of the claim, which is why the amended claim restricts both
conjuncts to nonzero paths. -/
theorem C7_claim_false_at_minus_one :
    ([(-1 : ℚ)] ≠ []) ∧
      cumulativePath [(-1 : ℚ)] = runningMax (cumulativePath [(-1 : ℚ)]) ∧
      max_drawdown [(-1 : ℚ)] ≠ 0 := by
  refine ⟨by simp, rfl, ?_⟩
  norm_num [max_drawdown, cumulativePath, cumprod, cumprodAux, runningMax, runningMaxAux,
    listMin]

theorem getLast?_cons_of_ne_nil {α : Type} (a : α) (t : List α) (h : t ≠ []) :
    (a :: t).getLast? = t.getLast? := by
  cases t with
  | nil => exact absurd rfl h
  | cons y ys => exact List.getLast?_cons_cons

theorem stress_foldl_lookup (sim : List ℚ → List ℚ) (returns : List ℚ) (nm : String)
    (scenarios : List Scenario) :
    ∀ acc : String → Option RiskMetrics,
      (scenarios.foldl
        (fun (stressed_results : String → Option RiskMetrics) (scenario : Scenario) =>
          Function.update stressed_results scenario.name
            (some (calculate_risk_metrics sim
              (generate_correlated_scenario_returns returns (shockParamsOfScenario scenario)) 0)))
        acc) nm =
      (match (scenarios.filter fun s => s.name == nm).getLast? with
       | some scen => some (calculate_risk_metrics sim
           (generate_correlated_scenario_returns returns (shockParamsOfScenario scen)) 0)
       | none => acc nm) := by
  induction scenarios with
  | nil => intro acc; rfl
  | cons s l ih =>
    intro acc
    rw [List.foldl_cons, ih]
    by_cases hname : s.name = nm
    · subst hname
      rw [List.filter_cons, if_pos (by simp)]
      cases hfl : l.filter fun t => t.name == s.name with
      | nil =>
        simp only [List.getLast?_nil, List.getLast?_singleton]
        rw [Function.update_same]
      | cons y ys =>
        rw [getLast?_cons_of_ne_nil s (y :: ys) (by simp)]
        cases hgl2 : (y :: ys).getLast? with
        | some scen => rfl
        | none => exact absurd hgl2 (by simp)
    · rw [List.filter_cons, if_neg (by simpa using hname)]
      cases hgl : (l.filter fun t => t.name == nm).getLast? with
      | some scen => rfl
      | none => exact Function.update_noteq (Ne.symm hname) _ acc

/-- C8: for every baseline series and ordered scenario list,
`stress_test_portfolio` maps each name to the metrics of the shock model
applied to the original baseline series — for duplicate names, those of the
last scenario in the list bearing that name (last-write-wins), each scenario
computed from the same baseline independently of the others. -/
theorem C8_stress_mapping (sim : List ℚ → List ℚ) (returns : List ℚ)
    (scenarios : List Scenario) (nm : String) :
    stress_test_portfolio sim returns scenarios nm =
      Option.map
        (fun scen => calculate_risk_metrics sim
          (generate_correlated_scenario_returns returns (shockParamsOfScenario scen)) 0)
        ((scenarios.filter fun s => s.name == nm).getLast?) := by
  unfold stress_test_portfolio
  rw [stress_foldl_lookup]
  cases (scenarios.filter fun s => s.name == nm).getLast? <;> rfl

/-- C9: any regime label other than the three recognized ones — the intended
Recovery but also every unrecognized label — falls through to the `else`
branch without error and selects the Recovery weight vector
[0.25, 0.25, 0.15, 0.15, 0.20], so an invalid regime is silently treated as
Recovery. -/
theorem C9_unknown_regime_recovery (factors : List (List ℚ)) (regime : String)
    (h1 : regime ≠ "Expansion") (h2 : regime ≠ "Recession") (h3 : regime ≠ "Contraction") :
    regimeWeights regime = [25/100, 25/100, 15/100, 15/100, 20/100] ∧
      construct_portfolio factors regime = construct_portfolio factors "Recovery" := by
  have hw : regimeWeights regime = [25/100, 25/100, 15/100, 15/100, 20/100] := by
    unfold regimeWeights
    rw [if_neg h1, if_neg h2, if_neg h3]
  have hrec : regimeWeights "Recovery" = [25/100, 25/100, 15/100, 15/100, 20/100] := by
    unfold regimeWeights
    rw [if_neg (by decide), if_neg (by decide), if_neg (by decide)]
  refine ⟨hw, ?_⟩
  unfold construct_portfolio
  rw [hw, hrec]

theorem C9_unknown_regime_recovery_witness :
    ("Stagflation" ≠ "Expansion") ∧ ("Stagflation" ≠ "Recession") ∧
      ("Stagflation" ≠ "Contraction") ∧
      (regimeWeights "Stagflation" = [25/100, 25/100, 15/100, 15/100, 20/100] ∧
        construct_portfolio [[1, 2, 3, 4, 5]] "Stagflation" =
          construct_portfolio [[1, 2, 3, 4, 5]] "Recovery") :=
  ⟨by decide, by decide, by decide,
    C9_unknown_regime_recovery [[1, 2, 3, 4, 5]] "Stagflation"
      (by decide) (by decide) (by decide)⟩

theorem generateSt_frame (s0 : Store) (rid : ℕ) (p : ShockParams) :
    (∀ j, j < s0.next → (generateSt s0 rid p).1.mem j = s0.mem j) ∧
      s0.next ≤ (generateSt s0 rid p).1.next := by
  unfold generateSt Store.alloc Store.write
  dsimp only
  split_ifs <;>
    refine ⟨fun j hj => ?_, by dsimp only; omega⟩ <;>
    simp only [Function.update_apply] <;>
    repeat rw [if_neg (by omega)]

theorem generateSt_result (s0 : Store) (rid : ℕ) (p : ShockParams) :
    (generateSt s0 rid p).1.mem (generateSt s0 rid p).2 =
      generate_correlated_scenario_returns (s0.mem rid) p := by
  unfold generateSt generate_correlated_scenario_returns Store.alloc Store.write
  dsimp only
  split_ifs <;>
    simp [Function.update_apply]

theorem stressSt_frame (sim : List ℚ → List ℚ) (rid : ℕ) (scenarios : List Scenario) :
    ∀ st : Store × (String → Option RiskMetrics), rid < st.1.next →
      (scenarios.foldl
        (fun (st : Store × (String → Option RiskMetrics)) scenario =>
          let r1 := generateSt st.1 rid (shockParamsOfScenario scenario)
          let m := calculate_risk_metrics sim (r1.1.mem r1.2) 0
          (r1.1, Function.update st.2 scenario.name (some m)))
        st).1.mem rid = st.1.mem rid ∧
        st.1.next ≤ (scenarios.foldl
          (fun (st : Store × (String → Option RiskMetrics)) scenario =>
            let r1 := generateSt st.1 rid (shockParamsOfScenario scenario)
            let m := calculate_risk_metrics sim (r1.1.mem r1.2) 0
            (r1.1, Function.update st.2 scenario.name (some m)))
          st).1.next := by
  induction scenarios with
  | nil => exact fun st _ => ⟨rfl, le_refl _⟩
  | cons s l ih =>
    intro st hlt
    rw [List.foldl_cons]
    dsimp only
    have hg := generateSt_frame st.1 rid (shockParamsOfScenario s)
    have hlt' : rid < (generateSt st.1 rid (shockParamsOfScenario s)).1.next :=
      lt_of_lt_of_le hlt hg.2
    obtain ⟨hmem, hnext⟩ :=
      ih ((generateSt st.1 rid (shockParamsOfScenario s)).1,
        Function.update st.2 s.name (some (calculate_risk_metrics sim
          ((generateSt st.1 rid (shockParamsOfScenario s)).1.mem
            (generateSt st.1 rid (shockParamsOfScenario s)).2) 0))) hlt'
    refine ⟨?_, le_trans hg.2 hnext⟩
    rw [hmem]
    exact hg.1 rid hlt

/-- C10: the shock model never mutates its input series — its only in-place
write goes into the freshly allocated copy of line 176 — and after
`stress_test_portfolio` completes, the baseline series object is unchanged, so
every scenario is shocked from the identical baseline. -/
theorem C10_baseline_unmutated (s0 : Store) (rid : ℕ) (p : ShockParams)
    (sim : List ℚ → List ℚ) (scenarios : List Scenario) (h : rid < s0.next) :
    (generateSt s0 rid p).1.mem rid = s0.mem rid ∧
      (stress_test_portfolioSt sim s0 rid scenarios).1.mem rid = s0.mem rid :=
  ⟨(generateSt_frame s0 rid p).1 rid h,
    (stressSt_frame sim rid scenarios (s0, fun _ => none) h).1⟩

theorem C10_baseline_unmutated_witness :
    (0 : ℕ) < 1 ∧
      ((generateSt ⟨fun _ => [1, 2], 1⟩ 0 ⟨2, 1, 3, 1, 2⟩).1.mem 0 =
        (⟨fun _ => [1, 2], 1⟩ : Store).mem 0 ∧
      (stress_test_portfolioSt (fun l => l) ⟨fun _ => [1, 2], 1⟩ 0
        [⟨"crash", -3/10, 0, 2, -1, 3/2⟩]).1.mem 0 =
        (⟨fun _ => [1, 2], 1⟩ : Store).mem 0) :=
  ⟨by decide,
    C10_baseline_unmutated ⟨fun _ => [1, 2], 1⟩ 0 ⟨2, 1, 3, 1, 2⟩ (fun l => l)
      [⟨"crash", -3/10, 0, 2, -1, 3/2⟩] (by decide)⟩

end PortfolioStress
